import Mathlib

/-!
Verification development for the game-session engine and chat service of a
turn-based Nim application.  Client hooks (`useNimGamePage`, `useGamePage`,
`NimGamePage`) and the server chat service (`chat.service.ts`) are embedded
from their TypeScript sources; the server-side game session engine is not
part of the provided sources, so it is modelled from the specification
(sections 4.1–4.2 of the design document), as marked on each definition.
-/

/-! ## Game session engine (modelled from the spec) -/

/-- Session status, `WAITING → IN_PROGRESS → OVER`. -/
inductive GameStatus where
  | WAITING
  | IN_PROGRESS
  | OVER
deriving DecidableEq, Repr

/-- A move that has been accepted and appended to the move log: mover
identity plus the Nim payload (number of objects removed). -/
structure AppliedMove where
  player : String
  numObjects : Nat
deriving DecidableEq, Repr

/-- A Nim move payload as submitted: `numObjects` objects to remove. -/
structure NimMove where
  numObjects : Nat
deriving DecidableEq, Repr

/-- Modelled from the spec: a game session (aka GameInstance) — identifier,
ordered player list (capacity 2 for Nim), status, append-only move log,
Nim-derived state `remainingObjects`, and `winners` (empty until OVER). -/
structure GameInstance where
  gameID : String
  players : List String
  status : GameStatus
  moves : List AppliedMove
  remainingObjects : Nat
  winners : List String
deriving DecidableEq, Repr

/-- Rejection reasons for `applyMove`. -/
inductive MoveError where
  | NotYourTurn
  | InvalidMove
  | GameNotInProgress
deriving DecidableEq, Repr

/-- Modelled from the spec: the Turn-Order Resolver — the legal mover is the
player at index `moves.length mod playerCount` (playerCount = 2 for Nim).
A pure derivation from the move log, never stored. -/
def derivedMover (g : GameInstance) : Option String :=
  g.players.get? (g.moves.length % 2)

/-- Modelled from the spec: `applyMove` validation sequence —
1. `NotYourTurn` if the submitting player is not the derived mover;
2. `InvalidMove` if the payload is out of range (Nim: `numObjects` not in
   {1,2,3}, or greater than `remainingObjects`);
3. `GameNotInProgress` if `status ≠ IN_PROGRESS`;
4. otherwise append the move, recompute `remainingObjects`, and apply the
   misère terminal rule: the mover who removes the last object loses, the
   other seated player is recorded in `winners`, status becomes OVER. -/
def applyMove (g : GameInstance) (player : String) (m : NimMove) :
    Except MoveError GameInstance :=
  if derivedMover g ≠ some player then
    .error .NotYourTurn
  else if ¬(1 ≤ m.numObjects ∧ m.numObjects ≤ 3) ∨
      m.numObjects > g.remainingObjects then
    .error .InvalidMove
  else if g.status ≠ .IN_PROGRESS then
    .error .GameNotInProgress
  else
    if g.remainingObjects - m.numObjects = 0 then
      .ok { g with
              moves := g.moves ++ [⟨player, m.numObjects⟩],
              remainingObjects := 0,
              status := .OVER,
              winners := g.players.filter (fun q => q ≠ player) }
    else
      .ok { g with
              moves := g.moves ++ [⟨player, m.numObjects⟩],
              remainingObjects := g.remainingObjects - m.numObjects }

/-- Modelled from the spec: session creation — a new session in WAITING with
the requester in slot 1, the Nim pile initialised to `initialObjects`. -/
def newGame (gameID : String) (player : String) (initialObjects : Nat) :
    GameInstance :=
  { gameID := gameID
    players := [player]
    status := .WAITING
    moves := []
    remainingObjects := initialObjects
    winners := [] }

/-- Modelled from the spec: seating a joining player — if the session is
WAITING, has an open slot, and the requester is not already seated, append
the requester; when the last slot fills, status moves to IN_PROGRESS. -/
def joinSession (g : GameInstance) (player : String) : GameInstance :=
  if g.status = .WAITING ∧ player ∉ g.players ∧ g.players.length < 2 then
    let seated := g.players ++ [player]
    { g with
        players := seated,
        status := if seated.length = 2 then .IN_PROGRESS else .WAITING }
  else g

/-- The sessions reachable through the engine: created fresh, grown by
`joinSession`, and mutated only by accepted `applyMove` calls. -/
inductive ReachableGame : GameInstance → Prop where
  | create (gameID player : String) (n : Nat) :
      ReachableGame (newGame gameID player n)
  | join (g : GameInstance) (player : String) :
      ReachableGame g → ReachableGame (joinSession g player)
  | move (g g' : GameInstance) (player : String) (m : NimMove) :
      ReachableGame g → applyMove g player m = .ok g' → ReachableGame g'

/-! ## Client: `useNimGamePage` and `NimGamePage` (from source) -/

/-- Base-10 integer parsing of a leading digit run, modelling the value of
the JavaScript `parseInt(move, 10)` call on the input strings the page can
hold; `none` plays the role of `NaN` (no leading digits). -/
def jsParseInt (s : String) : Option Nat :=
  let ds := s.toList.takeWhile (fun c => c.isDigit)
  if ds.isEmpty then none
  else some (ds.foldl (fun a c => a * 10 + (c.toNat - 48)) 0)

/-- The nested `move` object of a `makeMove` socket event:
`{ playerID, gameID, move: { numObjects } }`. -/
structure GameMovePayload where
  playerID : String
  gameID : String
  numObjects : Nat
deriving DecidableEq, Repr

/-- The payload of a `makeMove` socket event: `{ gameID, move }`. -/
structure MakeMoveEvent where
  gameID : String
  move : GameMovePayload
deriving DecidableEq, Repr

/-- `handleMakeMove` from `useNimGamePage`: with a non-empty move string,
parse it; when the parsed `numObjects` is between 1 and 3, emit the
`makeMove` event and clear the input, otherwise emit nothing.  Returns the
emitted event (if any) and the new value of the `move` state. -/
def handleMakeMove (username gameID moveInput : String) :
    Option MakeMoveEvent × String :=
  if moveInput ≠ "" then
    match jsParseInt moveInput with
    | some numObjects =>
        if 1 ≤ numObjects ∧ numObjects ≤ 3 then
          (some { gameID := gameID,
                  move := { playerID := username, gameID := gameID,
                            numObjects := numObjects } }, "")
        else (none, moveInput)
    | none => (none, moveInput)
  else (none, moveInput)

/-- The test `value.match(/^[1-3]$/)`: exactly one character, in 1–3. -/
def matchesOneToThree (value : String) : Bool :=
  match value.toList with
  | [c] => c = '1' || c = '2' || c = '3'
  | _ => false

/-- The conjuncts `parseInt(value, 10) >= 1 && parseInt(value, 10) <= 3`. -/
def parsesInRange (value : String) : Bool :=
  match jsParseInt value with
  | some n => decide (1 ≤ n) && decide (n ≤ 3)
  | none => false

/-- `handleInputChange` from `useNimGamePage`: accept the new input value
(only the empty string, or a single digit 1–3 whose parse is in range);
otherwise keep the previous `move` state. -/
def handleInputChange (move value : String) : String :=
  if value == "" || (matchesOneToThree value && parsesInRange value) then
    value
  else move

/-- `NimGamePage`: `moves.length % 2 === 0 ? player1 : player2`; the slots
are `Option` because a WAITING game shows a missing player. -/
def clientCurrentPlayer (player1 player2 : Option String) (movesLen : Nat) :
    Option String :=
  if movesLen % 2 = 0 then player1 else player2

/-- `NimGamePage`: `isUserTurn`, the submit button is disabled when this is
false. -/
def isUserTurn (player1 player2 : Option String) (movesLen : Nat)
    (username : String) : Bool :=
  clientCurrentPlayer player1 player2 movesLen = some username

/-! ## Client: `useGamePage` (from source) -/

/-- Payload of a `gameError` socket event: `{ player, error }`. -/
structure GameErrorPayload where
  player : String
  error : String
deriving DecidableEq, Repr

/-- `handleGameError` from `useGamePage`: set the error state to the
payload's reason only when the payload names the logged-in user. -/
def handleGameError (username : String) (errorState : Option String)
    (payload : GameErrorPayload) : Option String :=
  if payload.player = username then some payload.error else errorState

/-- Observable effects of one `handleLeaveGame` call: REST `leaveGame`
requests issued (gameID, username), `leaveGame` socket emissions, and the
route navigated to. -/
structure LeaveGameResult where
  leaveRequests : List (String × String)
  socketLeaves : List String
  navigatedTo : String
deriving DecidableEq, Repr

/-- `handleLeaveGame` from `useGamePage`: when a game is joined and its
status is not OVER, issue one `leaveGame` request (the socket emit follows
only if the request resolves; a rejection is swallowed, never retried);
in every case navigate to `/games`. -/
def handleLeaveGame (username : String) (joinedGameID : Option String)
    (gameState : Option GameInstance) (leaveOutcome : Except String Unit) :
    LeaveGameResult :=
  match joinedGameID, gameState with
  | some id, some g =>
      if g.status ≠ .OVER then
        match leaveOutcome with
        | .ok _ =>
            { leaveRequests := [(id, username)], socketLeaves := [id],
              navigatedTo := "/games" }
        | .error _ =>
            { leaveRequests := [(id, username)], socketLeaves := [],
              navigatedTo := "/games" }
      else
        { leaveRequests := [], socketLeaves := [], navigatedTo := "/games" }
  | _, _ =>
      { leaveRequests := [], socketLeaves := [], navigatedTo := "/games" }

/-- Observable effects of one `handleJoinGame` call: the values passed to
`setGameState` / `setJoinedGameID` / `setError`, the REST `joinGame`
requests issued (gameID, username), and the `joinGame` socket emissions. -/
structure JoinGameResult where
  gameStateSet : Option GameInstance
  joinedGameIDSet : Option String
  errorSet : Option String
  joinRequests : List (String × String)
  socketJoins : List String
deriving DecidableEq, Repr

/-- `handleJoinGame` from `useGamePage`: fetch all games; if the target
game exists and the user is already among its players, restore the state
without issuing a join request; if it exists without the user, issue a
`joinGame` request; report `Game not found` / `Failed to join game` /
`Failed to load game` otherwise.  The outcomes of the two awaited calls
are passed in explicitly. -/
def handleJoinGame (username id : String)
    (getGamesOutcome : Except String (List GameInstance))
    (joinOutcome : Except String GameInstance) : JoinGameResult :=
  match getGamesOutcome with
  | .error _ =>
      { gameStateSet := none, joinedGameIDSet := none,
        errorSet := some "Failed to load game",
        joinRequests := [], socketJoins := [] }
  | .ok allGames =>
      match allGames.find? (fun g => g.gameID == id) with
      | none =>
          { gameStateSet := none, joinedGameIDSet := none,
            errorSet := some "Game not found",
            joinRequests := [], socketJoins := [] }
      | some existingGame =>
          if username ∈ existingGame.players then
            { gameStateSet := some existingGame, joinedGameIDSet := some id,
              errorSet := none, joinRequests := [], socketJoins := [id] }
          else
            match joinOutcome with
            | .ok game =>
                { gameStateSet := some game, joinedGameIDSet := some id,
                  errorSet := none, joinRequests := [(id, username)],
                  socketJoins := [id] }
            | .error _ =>
                { gameStateSet := none, joinedGameIDSet := none,
                  errorSet := some "Failed to join game",
                  joinRequests := [(id, username)], socketJoins := [] }

/-- Modelled from the spec: `joinOrCreate` of the Session Lifecycle Manager
— if the requester is already seated in a live session return it unchanged
(idempotent rejoin); else seat them in a WAITING session with an open slot;
else create a fresh session. -/
def joinOrCreate (registry : List GameInstance) (player freshID : String)
    (initialObjects : Nat) : GameInstance × List GameInstance :=
  match registry.find?
      (fun g => g.status != .OVER && g.players.contains player) with
  | some g => (g, registry)
  | none =>
      match registry.find?
          (fun g => g.status == .WAITING && decide (g.players.length < 2)) with
      | some g =>
          let seated := joinSession g player
          (seated,
            registry.map (fun h => if h.gameID == g.gameID then seated else h))
      | none =>
          let created := newGame freshID player initialObjects
          (created, registry ++ [created])

/-! ## Server: `chat.service.ts` (from source)

Each service function is an `async` function whose `await`ed database
calls may reject; a rejected promise is the `Except.error` of the ambient
`Except String` monad.  The database operations themselves are passed in
as oracle functions, so the theorems quantify over every possible
database behaviour.  Each function is `tryCatch` of its `try` block
(embedded separately as `...Try`) with the `catch` handler from the
source. -/

/-- A user document (`_id`, `username`). -/
structure ChatUser where
  uid : String
  username : String
deriving DecidableEq, Repr

/-- A stored message document, with its assigned `_id`. -/
structure Message where
  mid : String
  msg : String
  msgFrom : String
  msgDateTime : Nat
  msgKind : String
deriving DecidableEq, Repr

/-- A stored chat document: `_id`, participant usernames, message ids. -/
structure Chat where
  cid : String
  participants : List String
  messages : List String
deriving DecidableEq, Repr

/-- The fields handed to `MessageModel.create`. -/
structure NewMessageDoc where
  msg : String
  msgFrom : String
  msgDateTime : Nat
  msgKind : String
deriving DecidableEq, Repr

/-- An incoming message value: `msgDateTime` and `type` may be absent
(the source defaults them with `|| new Date()` and `|| 'direct'`). -/
structure MessagePayload where
  msg : String
  msgFrom : String
  msgDateTime : Option Nat
  msgKind : Option String
deriving DecidableEq, Repr

/-- The argument of `saveChat`: participants plus full message objects. -/
structure CreateChatPayload where
  participants : List String
  messages : List MessagePayload
deriving DecidableEq, Repr

/-- `ChatResponse = Chat | { error: string }`. -/
inductive ChatResponse where
  | chat (c : Chat)
  | error (msg : String)
deriving DecidableEq, Repr

/-- `MessageResponse = Message | { error: string }`. -/
inductive MessageResponse where
  | message (m : Message)
  | error (msg : String)
deriving DecidableEq, Repr

/-- The `try` block of `saveChat`: create a message document per payload
message (`type: 'direct'`, defaulted date), then create the chat with the
resulting message ids. -/
def saveChatTry (createMessageDoc : NewMessageDoc → Except String Message)
    (createChatDoc : List String → List String → Except String Chat)
    (now : Nat) (chatPayload : CreateChatPayload) :
    Except String ChatResponse := do
  let messages ← chatPayload.messages.mapM (fun message =>
    createMessageDoc
      { msg := message.msg, msgFrom := message.msgFrom,
        msgDateTime := message.msgDateTime.getD now, msgKind := "direct" })
  let messageIds := messages.map (fun m => m.mid)
  let newChat ← createChatDoc chatPayload.participants messageIds
  pure (ChatResponse.chat newChat)

/-- `saveChat` from `chat.service.ts`. -/
def saveChat (createMessageDoc : NewMessageDoc → Except String Message)
    (createChatDoc : List String → List String → Except String Chat)
    (now : Nat) (chatPayload : CreateChatPayload) :
    Except String ChatResponse :=
  tryCatch (saveChatTry createMessageDoc createChatDoc now chatPayload)
    (fun e => pure (ChatResponse.error
      ("Error occurred when saving chat: " ++ e)))

/-- The `try` block of `createMessage`: verify the sender exists (else
throw `User not found`), then create the message document. -/
def createMessageTry
    (findUserByUsername : String → Except String (Option ChatUser))
    (createMessageDoc : NewMessageDoc → Except String Message)
    (now : Nat) (messageData : MessagePayload) :
    Except String MessageResponse := do
  let user ← findUserByUsername messageData.msgFrom
  match user with
  | none => throw "User not found"
  | some _ =>
      let newMessage ← createMessageDoc
        { msg := messageData.msg, msgFrom := messageData.msgFrom,
          msgDateTime := messageData.msgDateTime.getD now,
          msgKind := messageData.msgKind.getD "direct" }
      pure (MessageResponse.message newMessage)

/-- `createMessage` from `chat.service.ts`. -/
def createMessage
    (findUserByUsername : String → Except String (Option ChatUser))
    (createMessageDoc : NewMessageDoc → Except String Message)
    (now : Nat) (messageData : MessagePayload) :
    Except String MessageResponse :=
  tryCatch
    (createMessageTry findUserByUsername createMessageDoc now messageData)
    (fun e => pure (MessageResponse.error
      ("Error occurred when creating message: " ++ e)))

/-- The `try` block of `addMessageToChat`:
`ChatModel.findByIdAndUpdate(chatId, { $push: { messages } }, { new: true })`,
throwing `Chat not found` on a `null` result. -/
def addMessageToChatTry
    (findChatByIdAndPushMessage : String → String → Except String (Option Chat))
    (chatId messageId : String) : Except String ChatResponse := do
  let updatedChat ← findChatByIdAndPushMessage chatId messageId
  match updatedChat with
  | none => throw "Chat not found"
  | some c => pure (ChatResponse.chat c)

/-- `addMessageToChat` from `chat.service.ts`. -/
def addMessageToChat
    (findChatByIdAndPushMessage : String → String → Except String (Option Chat))
    (chatId messageId : String) : Except String ChatResponse :=
  tryCatch (addMessageToChatTry findChatByIdAndPushMessage chatId messageId)
    (fun e => pure (ChatResponse.error
      ("Error occurred when adding message to chat: " ++ e)))

/-- The `try` block of `getChat`: `ChatModel.findById`, throwing
`Chat not found` on a `null` result. -/
def getChatTry (findChatById : String → Except String (Option Chat))
    (chatId : String) : Except String ChatResponse := do
  let chat ← findChatById chatId
  match chat with
  | none => throw "Chat not found"
  | some c => pure (ChatResponse.chat c)

/-- `getChat` from `chat.service.ts`. -/
def getChat (findChatById : String → Except String (Option Chat))
    (chatId : String) : Except String ChatResponse :=
  tryCatch (getChatTry findChatById chatId)
    (fun e => pure (ChatResponse.error
      ("Error occurred when retrieving chat: " ++ e)))

/-- `getChatsByParticipants` from `chat.service.ts`: find the chats whose
participants include all of `p`; any failure resolves to `[]`. -/
def getChatsByParticipants
    (findChatsByParticipants : List String → Except String (List Chat))
    (p : List String) : Except String (List Chat) :=
  tryCatch (do
      let chats ← findChatsByParticipants p
      pure chats)
    (fun _ => pure [])

/-- The `try` block of `addParticipantToChat`: verify the user exists
(else throw `User not found`), then
`ChatModel.findByIdAndUpdate(chatId, { $addToSet: { participants: user.username } }, { new: true })`,
throwing `Chat not found` on a `null` result. -/
def addParticipantToChatTry
    (findUserById : String → Except String (Option ChatUser))
    (findChatByIdAndAddParticipant :
      String → String → Except String (Option Chat))
    (chatId userId : String) : Except String ChatResponse := do
  let user ← findUserById userId
  match user with
  | none => throw "User not found"
  | some u =>
      let updatedChat ← findChatByIdAndAddParticipant chatId u.username
      match updatedChat with
      | none => throw "Chat not found"
      | some c => pure (ChatResponse.chat c)

/-- `addParticipantToChat` from `chat.service.ts`. -/
def addParticipantToChat
    (findUserById : String → Except String (Option ChatUser))
    (findChatByIdAndAddParticipant :
      String → String → Except String (Option Chat))
    (chatId userId : String) : Except String ChatResponse :=
  tryCatch
    (addParticipantToChatTry findUserById findChatByIdAndAddParticipant
      chatId userId)
    (fun e => pure (ChatResponse.error
      ("Error occurred when adding participant: " ++ e)))

/-! ## MongoDB `$addToSet` semantics over a chat store -/

/-- MongoDB `$addToSet`: append the value only when not already present. -/
def addToSet (l : List String) (x : String) : List String :=
  if x ∈ l then l else l ++ [x]

/-- The effect of the `$addToSet` participant update on one chat document. -/
def chatAddParticipant (c : Chat) (username : String) : Chat :=
  { c with participants := addToSet c.participants username }

/-- The chat collection after
`findByIdAndUpdate(chatId, { $addToSet: { participants: username } })`:
the matching document is updated in place, others are untouched. -/
def storeAddParticipant (store : List Chat) (chatId username : String) :
    List Chat :=
  store.map (fun c =>
    if c.cid = chatId then chatAddParticipant c username else c)

/-- The value returned by that `findByIdAndUpdate` with `{ new: true }`:
the updated document, or `none` when no document matches. -/
def storeFindAddResult (store : List Chat) (chatId username : String) :
    Option Chat :=
  (store.find? (fun c => c.cid == chatId)).map
    (fun c => chatAddParticipant c username)

/-! ## Concrete demonstration sessions (the end-to-end scenario of §8) -/

/-- The scenario session right after both players are seated: `A` and `B`
on a pile of 5. -/
def nimDemoStart : GameInstance := joinSession (newGame "nim1" "A" 5) "B"

/-- A fresh one-player session still in WAITING. -/
def nimDemoWaiting : GameInstance := newGame "nim1" "A" 5

/-- The scenario session after `A` removes 3. -/
def nimDemoMid : GameInstance :=
  { gameID := "nim1", players := ["A", "B"], status := .IN_PROGRESS,
    moves := [⟨"A", 3⟩], remainingObjects := 2, winners := [] }

/-- The scenario session after `B` removes the last 2 objects. -/
def nimDemoEnd : GameInstance :=
  { gameID := "nim1", players := ["A", "B"], status := .OVER,
    moves := [⟨"A", 3⟩, ⟨"B", 2⟩], remainingObjects := 0, winners := ["A"] }

/-- The `makeMove` event emitted for input string `3` by player `A`. -/
def nimDemoEvent : MakeMoveEvent :=
  { gameID := "nim1",
    move := { playerID := "A", gameID := "nim1", numObjects := 3 } }

/-- The state invariant maintained by the engine: `status = OVER` exactly
when `winners` is non-empty (then a single winner), a non-WAITING session
has both seats filled, and the seats hold distinct players. -/
def GoodGame (g : GameInstance) : Prop :=
  (g.status = .OVER ↔ g.winners ≠ []) ∧
  (g.status = .OVER → g.winners.length = 1) ∧
  (g.status ≠ .WAITING → g.players.length = 2) ∧
  g.players.Nodup ∧
  g.players.length ≤ 2

/-! ## Helper lemmas -/

theorem exceptTryCatch_ok {α : Type} (a : α)
    (handler : String → Except String α) :
    tryCatch (Except.ok a : Except String α) handler = Except.ok a := rfl

theorem exceptTryCatch_error {α : Type} (e : String)
    (handler : String → Except String α) :
    tryCatch (Except.error e : Except String α) handler = handler e := rfl

theorem exceptBind_ok {α β : Type} (a : α) (f : α → Except String β) :
    (Except.ok a : Except String α) >>= f = f a := rfl

/-- Inversion of a successful `applyMove`: every validation check passed,
and the result is the terminal or the non-terminal update. -/
theorem applyMove_ok_inv (g : GameInstance) (player : String) (m : NimMove)
    (g' : GameInstance) (h : applyMove g player m = .ok g') :
    derivedMover g = some player ∧ 1 ≤ m.numObjects ∧ m.numObjects ≤ 3 ∧
    m.numObjects ≤ g.remainingObjects ∧ g.status = .IN_PROGRESS ∧
    ((g.remainingObjects - m.numObjects = 0 ∧
        g' = { g with
                 moves := g.moves ++ [⟨player, m.numObjects⟩],
                 remainingObjects := 0,
                 status := .OVER,
                 winners := g.players.filter (fun q => q ≠ player) }) ∨
      (g.remainingObjects - m.numObjects ≠ 0 ∧
        g' = { g with
                 moves := g.moves ++ [⟨player, m.numObjects⟩],
                 remainingObjects := g.remainingObjects - m.numObjects })) := by
  unfold applyMove at h
  split_ifs at h with h1 h2 h3 h4
  · push_neg at h1
    push_neg at h2
    simp only [Except.ok.injEq] at h
    refine ⟨h1, ?_, ?_, ?_, ?_, Or.inl ⟨h4, h.symm⟩⟩
    · exact h2.1.1
    · exact h2.1.2
    · omega
    · push_neg at h3; exact h3
  · push_neg at h1
    push_neg at h2
    simp only [Except.ok.injEq] at h
    refine ⟨h1, h2.1.1, h2.1.2, by omega, by push_neg at h3; exact h3,
      Or.inr ⟨h4, h.symm⟩⟩

/-- In a two-player session the derived mover is one of the two seats. -/
theorem twoPlayerMover (g : GameInstance) (a b p : String)
    (hp : g.players = [a, b]) (h : derivedMover g = some p) :
    p = a ∨ p = b := by
  unfold derivedMover at h
  rw [hp] at h
  rcases Nat.mod_two_eq_zero_or_one g.moves.length with hm | hm <;>
    rw [hm] at h <;> simp at h
  · exact Or.inl h.symm
  · exact Or.inr h.symm

/-- Every reachable session satisfies the state invariant. -/
theorem reachableGame_good (g : GameInstance) (hg : ReachableGame g) :
    GoodGame g := by
  induction hg with
  | create gameID player n =>
      unfold GoodGame newGame
      simp
  | join g player hg ih =>
      obtain ⟨hiff, hone, hlen2, hnd, hle⟩ := ih
      unfold joinSession
      split_ifs with hc
      · obtain ⟨hw, hnin, hlt⟩ := hc
        have hwin : g.winners = [] := by
          by_contra hne
          have hov := hiff.mpr hne
          rw [hw] at hov
          cases hov
        unfold GoodGame
        dsimp only
        split_ifs with h2
        · refine ⟨by simp [hwin], by simp, fun _ => h2, ?_, by omega⟩
          simp [List.nodup_append, hnd, hnin]
        · refine ⟨by simp [hwin], by simp, fun h => absurd rfl h, ?_, ?_⟩
          · simp [List.nodup_append, hnd, hnin]
          · simp only [List.length_append, List.length_cons,
              List.length_nil] at h2 ⊢
            omega
      · exact ⟨hiff, hone, hlen2, hnd, hle⟩
  | move g g' player m hg happ ih =>
      obtain ⟨hiff, hone, hlen2, hnd, hle⟩ := ih
      obtain ⟨hmover, hm1, hm3, hmr, hprog, hcase⟩ :=
        applyMove_ok_inv g player m g' happ
      have hpl2 : g.players.length = 2 := hlen2 (by rw [hprog]; simp)
      obtain ⟨a, b, hp⟩ := List.length_eq_two.mp hpl2
      have hab : a ≠ b := by
        rw [hp] at hnd
        simp [List.nodup_cons] at hnd
        exact hnd
      have hwin : g.winners = [] := by
        by_contra hne
        have hov := hiff.mpr hne
        rw [hprog] at hov
        cases hov
      have hpl := twoPlayerMover g a b player hp hmover
      rcases hcase with ⟨hz, rfl⟩ | ⟨hz, rfl⟩
      · unfold GoodGame
        dsimp only
        rcases hpl with rfl | rfl
        · have hfil : g.players.filter (fun q => q ≠ player) = [b] := by
            simp only [hp, List.filter]
            simp [hab, Ne.symm hab]
          refine ⟨by rw [hfil]; simp, by rw [hfil]; simp, fun _ => hpl2,
            hnd, hle⟩
        · have hfil : g.players.filter (fun q => q ≠ player) = [a] := by
            simp only [hp, List.filter]
            simp [hab, Ne.symm hab]
          refine ⟨by rw [hfil]; simp, by rw [hfil]; simp, fun _ => hpl2,
            hnd, hle⟩
      · unfold GoodGame
        dsimp only
        refine ⟨by rw [hprog, hwin]; simp, by rw [hprog]; simp,
          fun _ => hpl2, hnd, hle⟩

/-- The regex test `/^[1-3]$/` succeeds exactly on `1`, `2`, `3`. -/
theorem matchesOneToThree_spec (value : String) :
    matchesOneToThree value = true ↔
      (value = "1" ∨ value = "2" ∨ value = "3") := by
  obtain ⟨data⟩ := value
  unfold matchesOneToThree
  cases data with
  | nil => simp [String.ext_iff]
  | cons c rest =>
      cases rest with
      | nil =>
          simp [String.toList, String.ext_iff, or_assoc]
      | cons d rest2 => simp [String.toList, String.ext_iff]

theorem addToSet_mem (l : List String) (x : String) (h : x ∈ l) :
    addToSet l x = l := by
  unfold addToSet
  rw [if_pos h]

theorem addToSet_idem (l : List String) (x : String) :
    addToSet (addToSet l x) x = addToSet l x := by
  by_cases h : x ∈ l
  · rw [addToSet_mem l x h, addToSet_mem l x h]
  · unfold addToSet
    rw [if_neg h, if_pos (by simp)]

theorem addToSet_nodup (l : List String) (x : String) (h : l.Nodup) :
    (addToSet l x).Nodup := by
  by_cases hx : x ∈ l
  · rw [addToSet_mem l x hx]; exact h
  · unfold addToSet
    rw [if_neg hx]
    simp [List.nodup_append, h, hx]

theorem chatAddParticipant_idem (c : Chat) (u : String) :
    chatAddParticipant (chatAddParticipant c u) u = chatAddParticipant c u := by
  unfold chatAddParticipant
  simp [addToSet_idem]

/-! ## Claim theorems -/

/-- C1: Misère terminal rule — whenever an accepted move brings
`remainingObjects` to 0, the mover loses: the session becomes OVER and the
other seated player is the sole entry of `winners`; and in the scenario
from 5 objects, after A removes 3 (leaving 2, IN_PROGRESS) and B removes 2
(reaching 0), the winner is A and the status is OVER. -/
theorem claimC1 :
    (∀ (g g' : GameInstance) (a b player : String) (m : NimMove),
        g.players = [a, b] → a ≠ b →
        applyMove g player m = .ok g' →
        g'.remainingObjects = 0 →
        g'.status = .OVER ∧
        g'.winners = [if player = a then b else a] ∧
        player ∉ g'.winners) ∧
    applyMove nimDemoStart "A" ⟨3⟩ = .ok nimDemoMid ∧
    nimDemoMid.remainingObjects = 2 ∧ nimDemoMid.status = .IN_PROGRESS ∧
    applyMove nimDemoMid "B" ⟨2⟩ = .ok nimDemoEnd ∧
    nimDemoEnd.remainingObjects = 0 ∧ nimDemoEnd.status = .OVER ∧
    nimDemoEnd.winners = ["A"] := by
  refine ⟨?_, rfl, rfl, rfl, rfl, rfl, rfl, rfl⟩
  intro g g' a b player m hp hab happ hrem
  obtain ⟨hmover, _, _, _, _, hcase⟩ := applyMove_ok_inv g player m g' happ
  rcases hcase with ⟨hz, rfl⟩ | ⟨hz, rfl⟩
  · have hpl := twoPlayerMover g a b player hp hmover
    refine ⟨rfl, ?_, ?_⟩
    · rcases hpl with rfl | rfl
      · simp only [hp, List.filter, if_pos rfl]
        simp [hab, Ne.symm hab]
      · simp only [hp, List.filter]
        simp [hab, Ne.symm hab]
    · rcases hpl with rfl | rfl <;> simp [hp, List.filter, hab, Ne.symm hab]
  · exact absurd hrem hz

/-- C1 witness: the general misère conclusion instantiated at the final
move of the concrete scenario. -/
theorem claimC1_witness :
    nimDemoEnd.status = .OVER ∧
    nimDemoEnd.winners = [if "B" = "A" then "B" else "A"] ∧
    "B" ∉ nimDemoEnd.winners :=
  claimC1.1 nimDemoMid nimDemoEnd "A" "B" "B" ⟨2⟩ rfl (by decide) rfl rfl

/-- C2: Turn-order derivation — an accepted move is always by the derived
mover (player at index `moves.length mod 2`); the client's
`currentPlayer` agrees with the server-side derivation on a two-player
session; it is `player1` exactly on even move counts and `player2` on odd
ones, and the submit button is enabled exactly for the current player. -/
theorem claimC2 :
    (∀ (g : GameInstance) (p : String) (m : NimMove) (g' : GameInstance),
        applyMove g p m = .ok g' → derivedMover g = some p) ∧
    (∀ (g : GameInstance) (a b : String), g.players = [a, b] →
        clientCurrentPlayer (some a) (some b) g.moves.length
          = derivedMover g) ∧
    (∀ (p1 p2 : Option String) (n : Nat), n % 2 = 0 →
        clientCurrentPlayer p1 p2 n = p1) ∧
    (∀ (p1 p2 : Option String) (n : Nat), n % 2 = 1 →
        clientCurrentPlayer p1 p2 n = p2) ∧
    (∀ (p1 p2 : Option String) (n : Nat) (u : String),
        isUserTurn p1 p2 n u = true ↔ clientCurrentPlayer p1 p2 n = some u) := by
  refine ⟨?_, ?_, ?_, ?_, ?_⟩
  · intro g p m g' h
    exact (applyMove_ok_inv g p m g' h).1
  · intro g a b hp
    unfold clientCurrentPlayer derivedMover
    rw [hp]
    rcases Nat.mod_two_eq_zero_or_one g.moves.length with hm | hm <;>
      rw [hm] <;> simp
  · intro p1 p2 n h
    unfold clientCurrentPlayer
    rw [if_pos h]
  · intro p1 p2 n h
    unfold clientCurrentPlayer
    rw [if_neg (by omega)]
  · intro p1 p2 n u
    unfold isUserTurn
    simp

/-- C2 witness: after one move the derived mover is `B`, and the client
derivation agrees with it on the scenario session. -/
theorem claimC2_witness :
    derivedMover nimDemoMid = some "B" ∧
    clientCurrentPlayer (some "A") (some "B") nimDemoMid.moves.length
      = derivedMover nimDemoMid :=
  ⟨claimC2.1 nimDemoMid "B" ⟨2⟩ nimDemoEnd rfl,
    claimC2.2.1 nimDemoMid "A" "B" rfl⟩

/-- C3: Move-range guard — an emitted `makeMove` payload always carries
`numObjects ∈ {1,2,3}`; `handleInputChange` keeps the old state on any
value other than the empty string or a single digit 1–3, and accepts
those; and a payload outside the legal range submitted by the mover is
rejected with `InvalidMove` (hence never appended). -/
theorem claimC3 :
    (∀ (username gameID moveInput : String) (ev : MakeMoveEvent)
        (rest : String),
        handleMakeMove username gameID moveInput = (some ev, rest) →
        1 ≤ ev.move.numObjects ∧ ev.move.numObjects ≤ 3) ∧
    (∀ (move value : String),
        value ≠ "" → value ≠ "1" → value ≠ "2" → value ≠ "3" →
        handleInputChange move value = move) ∧
    (∀ (move value : String),
        value = "" ∨ value = "1" ∨ value = "2" ∨ value = "3" →
        handleInputChange move value = value) ∧
    (∀ (g : GameInstance) (p : String) (n : Nat),
        derivedMover g = some p →
        (n < 1 ∨ 3 < n ∨ g.remainingObjects < n) →
        applyMove g p ⟨n⟩ = .error .InvalidMove) := by
  refine ⟨?_, ?_, ?_, ?_⟩
  · intro username gameID moveInput ev rest h
    unfold handleMakeMove at h
    split_ifs at h with h1
    · cases hp : jsParseInt moveInput with
      | none =>
          rw [hp] at h
          simp at h
      | some n =>
          rw [hp] at h
          dsimp only at h
          split_ifs at h with h2
          · simp only [Prod.mk.injEq, Option.some.injEq] at h
            obtain ⟨hev, -⟩ := h
            rw [← hev]
            exact ⟨h2.1, h2.2⟩
          · simp at h
    · simp at h
  · intro move value h0 h1 h2 h3
    have hm : matchesOneToThree value = false := by
      have hns : ¬(matchesOneToThree value = true) := by
        rw [matchesOneToThree_spec]
        rintro (rfl | rfl | rfl) <;> simp_all
      exact Bool.not_eq_true _ |>.mp hns
    have hv : (value == "") = false := by
      simp [h0]
    unfold handleInputChange
    rw [hv, hm]
    simp
  · intro move value h
    rcases h with rfl | rfl | rfl | rfl <;> rfl
  · intro g p n h1 h2
    unfold applyMove
    rw [if_neg (not_not_intro h1), if_pos]
    show ¬(1 ≤ n ∧ n ≤ 3) ∨ n > g.remainingObjects
    omega

/-- C3 witness: input `3` emits a payload with `numObjects = 3`; input
`7` is rejected by the input guard; a payload of 4 is rejected with
`InvalidMove` on the 5-object demo session. -/
theorem claimC3_witness :
    (1 ≤ nimDemoEvent.move.numObjects ∧ nimDemoEvent.move.numObjects ≤ 3) ∧
    handleInputChange "2" "7" = "2" ∧
    applyMove nimDemoStart "A" ⟨4⟩ = .error .InvalidMove :=
  ⟨claimC3.1 "A" "nim1" "3" nimDemoEvent "" rfl,
    claimC3.2.1 "2" "7" (by decide) (by decide) (by decide) (by decide),
    claimC3.2.2.2 nimDemoStart "A" 4 rfl (by decide)⟩

/-- C4: Status/winners invariant — on every reachable session snapshot,
`status = OVER` iff `winners` is non-empty, with exactly one winner at
OVER, and `winners` empty before OVER. -/
theorem claimC4 (g : GameInstance) (hg : ReachableGame g) :
    (g.status = .OVER ↔ g.winners ≠ []) ∧
    (g.status = .OVER → g.winners.length = 1) ∧
    (g.status ≠ .OVER → g.winners = []) := by
  obtain ⟨hiff, hone, _, _, _⟩ := reachableGame_good g hg
  refine ⟨hiff, hone, fun h => ?_⟩
  by_contra hne
  exact h (hiff.mpr hne)

/-- C4 witness: the invariant evaluated on the scenario's terminal
session, reached by create, join and two accepted moves. -/
theorem claimC4_witness :
    (nimDemoEnd.status = .OVER ↔ nimDemoEnd.winners ≠ []) ∧
    nimDemoEnd.winners.length = 1 :=
  have hreach : ReachableGame nimDemoEnd :=
    ReachableGame.move nimDemoMid nimDemoEnd "B" ⟨2⟩
      (ReachableGame.move nimDemoStart nimDemoMid "A" ⟨3⟩
        (ReachableGame.join (newGame "nim1" "A" 5) "B"
          (ReachableGame.create "nim1" "A" 5)) rfl) rfl
  ⟨(claimC4 nimDemoEnd hreach).1, (claimC4 nimDemoEnd hreach).2.1 rfl⟩

/-- C5: Idempotent rejoin — with the requester already seated in a live
session, `joinOrCreate` returns that session and leaves the registry (and
hence its player list) unchanged, so a second call returns the same
session identifier; and the client's `handleJoinGame` issues no join
request and restores the existing state when the user is already among
the game's players. -/
theorem claimC5 :
    (∀ (registry : List GameInstance) (player id1 id2 : String)
        (n1 n2 : Nat) (g0 : GameInstance),
        registry.find?
            (fun g => g.status != .OVER && g.players.contains player) =
          some g0 →
        joinOrCreate registry player id1 n1 = (g0, registry) ∧
        joinOrCreate registry player id2 n2 = (g0, registry)) ∧
    (∀ (username id : String) (games : List GameInstance)
        (existingGame : GameInstance)
        (joinOutcome : Except String GameInstance),
        games.find? (fun g => g.gameID == id) = some existingGame →
        username ∈ existingGame.players →
        (handleJoinGame username id (.ok games) joinOutcome).joinRequests
            = [] ∧
        (handleJoinGame username id (.ok games) joinOutcome).gameStateSet
            = some existingGame ∧
        (handleJoinGame username id (.ok games) joinOutcome).joinedGameIDSet
            = some id) := by
  constructor
  · intro registry player id1 id2 n1 n2 g0 hfind
    unfold joinOrCreate
    rw [hfind]
    exact ⟨rfl, rfl⟩
  · intro username id games existingGame joinOutcome hfind hmem
    simp [handleJoinGame, hfind, hmem]

/-- C5 witness: player A, already seated in the demo session, rejoins
twice without any registry change, and the client skips the join request
even when the join call would fail. -/
theorem claimC5_witness :
    (joinOrCreate [nimDemoStart] "A" "x" 5 = (nimDemoStart, [nimDemoStart]) ∧
      joinOrCreate [nimDemoStart] "A" "y" 7 =
        (nimDemoStart, [nimDemoStart])) ∧
    (handleJoinGame "A" "nim1" (.ok [nimDemoStart])
        (.error "boom")).joinRequests = [] :=
  ⟨claimC5.1 [nimDemoStart] "A" "x" "y" 5 7 nimDemoStart rfl,
    (claimC5.2 "A" "nim1" [nimDemoStart] nimDemoStart (.error "boom") rfl
      (by decide)).1⟩

/-- C6: gameError scoping — `handleGameError` sets the error state to the
payload's reason exactly when the payload names the logged-in user, and
leaves the error state unchanged otherwise. -/
theorem claimC6 (username : String) (errorState : Option String)
    (p : GameErrorPayload) :
    (p.player = username →
      handleGameError username errorState p = some p.error) ∧
    (p.player ≠ username →
      handleGameError username errorState p = errorState) := by
  unfold handleGameError
  constructor <;> intro h <;> simp [h]

/-- C6 witness: A's error payload updates A's error state; B's payload
leaves A's error state untouched. -/
theorem claimC6_witness :
    handleGameError "A" none ⟨"A", "bad move"⟩ = some "bad move" ∧
    handleGameError "A" none ⟨"B", "bad move"⟩ = none :=
  ⟨(claimC6 "A" none ⟨"A", "bad move"⟩).1 rfl,
    (claimC6 "A" none ⟨"B", "bad move"⟩).2 (by decide)⟩

/-- C7: Leave semantics — `handleLeaveGame` issues at most one leave
request, exactly when a game is joined with status not OVER (regardless
of whether the request then succeeds or fails — no retry), and navigates
to `/games` on every call. -/
theorem claimC7 (username : String) (joined : Option String)
    (gs : Option GameInstance) (outcome : Except String Unit) :
    (handleLeaveGame username joined gs outcome).leaveRequests.length ≤ 1 ∧
    ((handleLeaveGame username joined gs outcome).leaveRequests ≠ [] ↔
      (∃ id g, joined = some id ∧ gs = some g ∧ g.status ≠ .OVER)) ∧
    (handleLeaveGame username joined gs outcome).navigatedTo = "/games" ∧
    (∀ (id : String) (g : GameInstance),
        joined = some id → gs = some g → g.status ≠ .OVER →
        (handleLeaveGame username joined gs outcome).leaveRequests
          = [(id, username)]) := by
  cases joined with
  | none =>
      cases gs <;> simp [handleLeaveGame]
  | some id =>
      cases gs with
      | none => simp [handleLeaveGame]
      | some g =>
          by_cases hov : g.status = .OVER
          · simp [handleLeaveGame, hov]
          · cases outcome <;> simp [handleLeaveGame, hov]

/-- C7 witness: with a joined in-progress game and a failing leave call,
exactly one request is issued and the client still navigates away. -/
theorem claimC7_witness :
    (handleLeaveGame "A" (some "nim1") (some nimDemoStart)
        (.error "network")).leaveRequests = [("nim1", "A")] ∧
    (handleLeaveGame "A" (some "nim1") (some nimDemoStart)
        (.error "network")).navigatedTo = "/games" :=
  ⟨(claimC7 "A" (some "nim1") (some nimDemoStart)
      (.error "network")).2.2.2 "nim1" nimDemoStart rfl rfl (by decide),
    (claimC7 "A" (some "nim1") (some nimDemoStart)
      (.error "network")).2.2.1⟩

/-- C8: applyMove validation order — a non-mover is rejected with
`NotYourTurn` whatever the status or payload; the mover with an
out-of-range payload gets `InvalidMove` whatever the status; only a
mover with a legal payload on a non-IN_PROGRESS session gets
`GameNotInProgress`. -/
theorem claimC8 (g : GameInstance) (p : String) (m : NimMove) :
    (derivedMover g ≠ some p →
      applyMove g p m = .error .NotYourTurn) ∧
    (derivedMover g = some p →
      (m.numObjects < 1 ∨ 3 < m.numObjects ∨
        g.remainingObjects < m.numObjects) →
      applyMove g p m = .error .InvalidMove) ∧
    (derivedMover g = some p → 1 ≤ m.numObjects → m.numObjects ≤ 3 →
      m.numObjects ≤ g.remainingObjects → g.status ≠ .IN_PROGRESS →
      applyMove g p m = .error .GameNotInProgress) := by
  refine ⟨?_, ?_, ?_⟩
  · intro h
    unfold applyMove
    rw [if_pos h]
  · intro h1 h2
    unfold applyMove
    rw [if_neg (not_not_intro h1), if_pos (by omega)]
  · intro h1 h2 h3 h4 h5
    unfold applyMove
    rw [if_neg (not_not_intro h1), if_neg (by omega), if_pos h5]

/-- C8 witness: on a WAITING session, the non-mover B gets `NotYourTurn`
(not `GameNotInProgress`), while the mover A with a legal payload gets
`GameNotInProgress`. -/
theorem claimC8_witness :
    applyMove nimDemoWaiting "B" ⟨2⟩ = .error .NotYourTurn ∧
    applyMove nimDemoWaiting "A" ⟨2⟩ = .error .GameNotInProgress :=
  ⟨(claimC8 nimDemoWaiting "B" ⟨2⟩).1 (by decide),
    (claimC8 nimDemoWaiting "A" ⟨2⟩).2.2 rfl (by decide) (by decide)
      (by decide) (by decide)⟩

/-- C9: Chat service totality over exceptions — whatever the database
oracles do, each service function resolves (never rejects): the five
document operations resolve with the error-string variant whenever their
`try` block fails, and `getChatsByParticipants` resolves with `[]` on any
failure. -/
theorem claimC9 :
    (∀ cm cc now payload, ∃ r, saveChat cm cc now payload = Except.ok r) ∧
    (∀ cm cc now payload e, saveChatTry cm cc now payload = .error e →
        saveChat cm cc now payload =
          .ok (ChatResponse.error
            ("Error occurred when saving chat: " ++ e))) ∧
    (∀ fu cm now msg, ∃ r, createMessage fu cm now msg = Except.ok r) ∧
    (∀ fu cm now msg e, createMessageTry fu cm now msg = .error e →
        createMessage fu cm now msg =
          .ok (MessageResponse.error
            ("Error occurred when creating message: " ++ e))) ∧
    (∀ fp cid mid, ∃ r, addMessageToChat fp cid mid = Except.ok r) ∧
    (∀ fp cid mid e, addMessageToChatTry fp cid mid = .error e →
        addMessageToChat fp cid mid =
          .ok (ChatResponse.error
            ("Error occurred when adding message to chat: " ++ e))) ∧
    (∀ fc cid, ∃ r, getChat fc cid = Except.ok r) ∧
    (∀ fc cid e, getChatTry fc cid = .error e →
        getChat fc cid =
          .ok (ChatResponse.error
            ("Error occurred when retrieving chat: " ++ e))) ∧
    (∀ fu fa cid uid, ∃ r, addParticipantToChat fu fa cid uid = Except.ok r) ∧
    (∀ fu fa cid uid e,
        addParticipantToChatTry fu fa cid uid = .error e →
        addParticipantToChat fu fa cid uid =
          .ok (ChatResponse.error
            ("Error occurred when adding participant: " ++ e))) ∧
    (∀ fc p, ∃ l, getChatsByParticipants fc p = Except.ok l) ∧
    (∀ fc p e, fc p = .error e →
        getChatsByParticipants fc p = Except.ok []) := by
  refine ⟨?_, ?_, ?_, ?_, ?_, ?_, ?_, ?_, ?_, ?_, ?_, ?_⟩
  · intro cm cc now payload
    unfold saveChat
    cases h : saveChatTry cm cc now payload with
    | ok r => exact ⟨r, rfl⟩
    | error e => exact ⟨_, rfl⟩
  · intro cm cc now payload e h
    unfold saveChat
    rw [h, exceptTryCatch_error]
    rfl
  · intro fu cm now msg
    unfold createMessage
    cases h : createMessageTry fu cm now msg with
    | ok r => exact ⟨r, rfl⟩
    | error e => exact ⟨_, rfl⟩
  · intro fu cm now msg e h
    unfold createMessage
    rw [h, exceptTryCatch_error]
    rfl
  · intro fp cid mid
    unfold addMessageToChat
    cases h : addMessageToChatTry fp cid mid with
    | ok r => exact ⟨r, rfl⟩
    | error e => exact ⟨_, rfl⟩
  · intro fp cid mid e h
    unfold addMessageToChat
    rw [h, exceptTryCatch_error]
    rfl
  · intro fc cid
    unfold getChat
    cases h : getChatTry fc cid with
    | ok r => exact ⟨r, rfl⟩
    | error e => exact ⟨_, rfl⟩
  · intro fc cid e h
    unfold getChat
    rw [h, exceptTryCatch_error]
    rfl
  · intro fu fa cid uid
    unfold addParticipantToChat
    cases h : addParticipantToChatTry fu fa cid uid with
    | ok r => exact ⟨r, rfl⟩
    | error e => exact ⟨_, rfl⟩
  · intro fu fa cid uid e h
    unfold addParticipantToChat
    rw [h, exceptTryCatch_error]
    rfl
  · intro fc p
    unfold getChatsByParticipants
    cases h : fc p with
    | ok l => exact ⟨l, rfl⟩
    | error e => exact ⟨[], rfl⟩
  · intro fc p e h
    unfold getChatsByParticipants
    rw [show (do
        let chats ← fc p
        pure chats : Except String (List Chat)) = fc p from by
          cases fc p <;> rfl, h, exceptTryCatch_error]
    rfl

/-- C9 witness: with a database oracle that always rejects, `getChat`
resolves with the error object and `getChatsByParticipants` resolves
with the empty array. -/
theorem claimC9_witness :
    getChat (fun _ => .error "db down") "c1" =
      .ok (ChatResponse.error
        ("Error occurred when retrieving chat: " ++ "db down")) ∧
    getChatsByParticipants (fun _ => .error "db down") ["A"] =
      Except.ok [] :=
  ⟨claimC9.2.2.2.2.2.2.2.1 (fun _ => .error "db down") "c1" "db down" rfl,
    claimC9.2.2.2.2.2.2.2.2.2.2.2 (fun _ => .error "db down") ["A"]
      "db down" rfl⟩

/-- C10: Participant-add idempotence — the `$addToSet` update adds the
username only when absent (second application is the identity, a present
username leaves the list unchanged, and no duplicate is ever introduced),
and `addParticipantToChat` with an existing user and chat resolves with
the chat updated by exactly that set-insertion. -/
theorem claimC10 :
    (∀ (l : List String) (x : String),
        addToSet (addToSet l x) x = addToSet l x ∧
        (x ∈ l → addToSet l x = l) ∧
        (l.Nodup → (addToSet l x).Nodup)) ∧
    (∀ (store : List Chat) (chatId username : String),
        storeAddParticipant (storeAddParticipant store chatId username)
            chatId username =
          storeAddParticipant store chatId username) ∧
    (∀ (store : List Chat) (chatId username : String),
        (∀ c ∈ store, c.participants.Nodup) →
        ∀ c' ∈ storeAddParticipant store chatId username,
          c'.participants.Nodup) ∧
    (∀ (fu : String → Except String (Option ChatUser)) (store : List Chat)
        (chatId userId : String) (u : ChatUser) (c0 : Chat),
        fu userId = .ok (some u) →
        store.find? (fun c => c.cid == chatId) = some c0 →
        addParticipantToChat fu
            (fun cid uname => .ok (storeFindAddResult store cid uname))
            chatId userId =
          .ok (ChatResponse.chat (chatAddParticipant c0 u.username)) ∧
        (chatAddParticipant c0 u.username).participants =
          addToSet c0.participants u.username) := by
  refine ⟨?_, ?_, ?_, ?_⟩
  · intro l x
    exact ⟨addToSet_idem l x, addToSet_mem l x, addToSet_nodup l x⟩
  · intro store chatId username
    unfold storeAddParticipant
    rw [List.map_map]
    apply List.map_congr_left
    intro c _
    by_cases hc : c.cid = chatId
    · simp only [Function.comp_apply, if_pos hc]
      have hcid : (chatAddParticipant c username).cid = c.cid := rfl
      rw [if_pos (by rw [hcid]; exact hc), chatAddParticipant_idem]
    · simp only [Function.comp_apply, if_neg hc, if_neg hc]
  · intro store chatId username hall c' hc'
    unfold storeAddParticipant at hc'
    obtain ⟨c, hc, hfc⟩ := List.mem_map.mp hc'
    by_cases hcid : c.cid = chatId
    · rw [if_pos hcid] at hfc
      rw [← hfc]
      exact addToSet_nodup _ _ (hall c hc)
    · rw [if_neg hcid] at hfc
      rw [← hfc]
      exact hall c hc
  · intro fu store chatId userId u c0 hfu hfind
    refine ⟨?_, rfl⟩
    have hsf : storeFindAddResult store chatId u.username
        = some (chatAddParticipant c0 u.username) := by
      unfold storeFindAddResult
      rw [hfind]
      rfl
    unfold addParticipantToChat addParticipantToChatTry
    rw [hfu]
    simp only [exceptBind_ok, hsf]
    rfl

/-- C10 witness: adding a participant twice to a one-chat store changes
nothing the second time, and re-adding a present username is the
identity. -/
theorem claimC10_witness :
    addToSet ["A"] "A" = ["A"] ∧
    addParticipantToChat (fun _ => .ok (some ⟨"u1", "B"⟩))
        (fun cid uname =>
          .ok (storeFindAddResult [⟨"c1", ["A"], []⟩] cid uname))
        "c1" "u1" =
      .ok (ChatResponse.chat (chatAddParticipant ⟨"c1", ["A"], []⟩ "B")) :=
  ⟨(claimC10.1 ["A"] "A").2.1 (by decide),
    (claimC10.2.2.2 (fun _ => .ok (some ⟨"u1", "B"⟩)) [⟨"c1", ["A"], []⟩]
      "c1" "u1" ⟨"u1", "B"⟩ ⟨"c1", ["A"], []⟩ rfl rfl).1⟩
